import Mathlib

/-!
Verification of the constrained playlist allocator in `src/app.py`
(Playlist_input repository).

The Python source is shallowly embedded:

* a pandas row of the track table becomes a `Track`;
* the per-playlist `while` loop of `generate_playlists` becomes the
  fuel-indexed function `buildPlaylist`: the Python loop has no fuel, so a
  run of the Python loop that terminates corresponds to `some _` for every
  sufficiently large fuel, and a non-terminating Python loop corresponds to
  `none` for every fuel;
* `pandas.DataFrame.sample(1)` (uniform) and `sample(1, weights=...)`
  (popularity weighted) both return one row of the filtered frame
  `valid_tracks`; the claims treated here are independent of the sampling
  distribution, so the random source is embedded as an injected stream
  `rng : Nat -> Nat` of draws, and the selected row is the one at index
  `rng step % valid.length`.  Quantifying over all `rng` quantifies over
  every possible sequence of sample outcomes.
* the Python dict `used_artists` becomes a total function `String -> Nat`
  (with `dict.get(artist, 0)` being plain application), the set
  `used_isrcs` a `List String` used through membership.
-/

/-- One row of the cleaned track table: columns `artist`, `title`, `isrc`
and the optional `streams` weight (present only when the uploaded sheet has
a `Number of Streams` column). -/
structure Track where
  artist : String
  title : String
  isrc : String
  streams : Option Nat
deriving DecidableEq, Repr

/-- Placeholder used by the (never out-of-range) indexed selection. -/
def defaultTrack : Track := ⟨"", "", "", none⟩

/-- The mutable state of one iteration of the `while` loop in
`generate_playlists` (src/app.py lines 31-61): the playlist built so far,
the per-playlist artist usage dict, the cross-playlist `used_isrcs` set and
the per-playlist `remaining_tracks` frame. -/
structure LoopState where
  playlist : List Track
  usedArtists : String → Nat
  usedIsrcs : List String
  remaining : List Track

/-- Number of occurrences of artist `a` in a playlist. -/
def artistCount (pl : List Track) (a : String) : Nat :=
  pl.countP (fun t => t.artist == a)

/-- `valid_tracks` (src/app.py lines 36-38): rows of `remaining_tracks`
whose artist has been used fewer than 3 times in the current playlist and
whose isrc is not in `used_isrcs`. -/
def validTracks (s : LoopState) : List Track :=
  s.remaining.filter fun t =>
    decide (s.usedArtists t.artist < 3) && !(decide (t.isrc ∈ s.usedIsrcs))

/-- The consecutive-artist test of src/app.py line 52:
`playlist and playlist[-1]['artist'] == selected_track['artist']`. -/
def sameAsLast (pl : List Track) (t : Track) : Bool :=
  match pl.getLast? with
  | some u => u.artist == t.artist
  | none => false

/-- One `sample(1)` call: the random source yields an index into the
eligible frame.  Both the uniform and the weighted branch of
src/app.py lines 43-49 return one row of `valid_tracks`; only the
distribution differs, which none of the verified claims depends on. -/
def selectTrack (rng : Nat → Nat) (step : Nat) (valid : List Track) : Track :=
  valid.getD (rng step % valid.length) defaultTrack

/-- The state update of src/app.py lines 55-61 after a track is appended:
grow the playlist, bump the artist's usage count, add the isrc to
`used_isrcs`, and drop the row from `remaining_tracks`. -/
def appendTrack (s : LoopState) (t : Track) : LoopState :=
  { playlist := s.playlist ++ [t]
    usedArtists := fun a => if a = t.artist then s.usedArtists t.artist + 1 else s.usedArtists a
    usedIsrcs := t.isrc :: s.usedIsrcs
    remaining := s.remaining.filter fun u => decide (u.isrc ≠ t.isrc) }

/-- The `while len(playlist) < tracks_per_playlist` loop of
`generate_playlists` (src/app.py lines 35-61), indexed by fuel.  `none`
means the loop did not exit within `fuel` iterations; `some (s, step)`
returns the final state and the number of random draws consumed.  The
`continue` of line 53 re-enters the loop with the state unchanged. -/
def buildPlaylist (rng : Nat → Nat) (K : Nat) :
    Nat → Nat → LoopState → Option (LoopState × Nat)
  | 0, _, _ => none
  | fuel + 1, step, s =>
    if s.playlist.length < K then
      if (validTracks s).isEmpty then some (s, step)
      else
        if sameAsLast s.playlist (selectTrack rng step (validTracks s)) then
          buildPlaylist rng K fuel (step + 1) s
        else
          buildPlaylist rng K fuel (step + 1) (appendTrack s (selectTrack rng step (validTracks s)))
    else some (s, step)

/-- Fresh per-playlist state (src/app.py lines 31-33): empty playlist,
empty artist dict, the shared `used_isrcs` carried over, and
`remaining_tracks = data.copy()`. -/
def initState (usedIsrcs : List String) (data : List Track) : LoopState :=
  ⟨[], fun _ => 0, usedIsrcs, data⟩

/-- The `for _ in range(num_playlists)` loop of `generate_playlists`
(src/app.py lines 30-65), threading `used_isrcs` across playlists. -/
def genLoop (rng : Nat → Nat) (data : List Track) (K fuel : Nat) :
    Nat → Nat → List String → Option (List (List Track))
  | 0, _, _ => some []
  | p + 1, step, usedIsrcs =>
    match buildPlaylist rng K fuel step (initState usedIsrcs data) with
    | none => none
    | some (s, step2) =>
      match genLoop rng data K fuel p step2 s.usedIsrcs with
      | none => none
      | some rest => some (s.playlist :: rest)

/-- `generate_playlists(data, num_playlists, tracks_per_playlist)`
(src/app.py lines 25-66), fuel-indexed: `some playlists` iff every
per-playlist loop exits within `fuel` iterations. -/
def generate_playlists (rng : Nat → Nat) (data : List Track) (P K fuel : Nat) :
    Option (List (List Track)) :=
  genLoop rng data K fuel P 0 []

/-- `validate_playlist_rules(data, num_playlists, tracks_per_playlist)`
(src/app.py lines 13-23): `nunique` of the artist column, total row count,
and the two closed-form feasibility rules. -/
def validate_playlist_rules (data : List Track) (num_playlists tracks_per_playlist : Nat) :
    Bool × String :=
  let unique_artists := (data.map Track.artist).dedup.length
  let total_tracks := data.length
  let max_tracks_by_artist := 3 * unique_artists * num_playlists
  if total_tracks < tracks_per_playlist * num_playlists then
    (false, "Error: Archivo con data menor a tus solicitud. Ajusta la cantidad de playlists y tracks e intentalo de nuevo.")
  else if max_tracks_by_artist < tracks_per_playlist * num_playlists then
    (false, "Too many restrictions for the available tracks.")
  else
    (true, "Valid playlist configuration.")

/-- One row of the uploaded first sheet after column selection and renaming
(src/app.py lines 125-131): the three required columns and the optional
`streams` column, each possibly holding a missing value (NaN). -/
structure RawRow where
  artist : Option String
  title : Option String
  isrc : Option String
  streams : Option Nat
deriving DecidableEq, Repr

/-- A sheet of the uploaded workbook: which of the relevant columns are
present, and its rows. -/
structure InputTable where
  hasArtist : Bool
  hasTitle : Bool
  hasIsrc : Bool
  hasStreams : Bool
  rows : List RawRow
deriving DecidableEq, Repr

/-- The cleaning step of `process_playlists` (src/app.py lines 125-132):
the frame is restricted to the required columns plus `streams` when that
column is present, and `data.dropna(inplace=True)` then drops every row
with a missing value in ANY of the kept columns — including a missing
`streams` value when the `streams` column exists. -/
def clean_rows (tbl : InputTable) : List Track :=
  tbl.rows.filterMap fun r =>
    match r.artist, r.title, r.isrc with
    | some a, some t, some i =>
      if tbl.hasStreams then
        match r.streams with
        | some w => some ⟨a, t, i, some w⟩
        | none => none
      else some ⟨a, t, i, none⟩
    | _, _, _ => none

/-- The synthetic names `[f"Playlist {i + 1}" for i in range(n)]`
(src/app.py lines 105, 108, 148). -/
def fallback_names (n : Nat) : List String :=
  (List.range n).map fun i => "Playlist " ++ toString (i + 1)

/-- Python whitespace test used by `str.strip()`. -/
def isPySpace (c : Char) : Bool :=
  c == ' ' || c == '\t' || c == '\n' || c == '\r'

/-- Python `str.strip()`: remove leading and trailing whitespace. -/
def pyStrip (s : String) : String :=
  ⟨((s.toList.dropWhile isPySpace).reverse.dropWhile isPySpace).reverse⟩

/-- Python `name.split(".", 1)[-1]`: everything after the first dot, or the
whole string when it has no dot. -/
def afterFirstDot (s : String) : String :=
  match s.toList.dropWhile (fun c => c != '.') with
  | [] => s
  | _ :: rest => ⟨rest⟩

/-- Python `str.strip(ch)` for a single character: remove leading and
trailing occurrences of the character. -/
def stripChar (c : Char) (s : String) : String :=
  ⟨((s.toList.dropWhile (· == c)).reverse.dropWhile (· == c)).reverse⟩

/-- The per-line cleanup of src/app.py line 102:
`name.split(".", 1)[-1].strip().strip(quote)`. -/
def cleanName (name : String) : String :=
  stripChar '"' (pyStrip (afterFirstDot name))

/-- `suggest_playlist_names` (src/app.py lines 86-108) with the OpenAI call
abstracted into its observable outcome: `Except.error` models a raised
exception, `Except.ok none` a response without a `choices` field, and
`Except.ok (some lines)` a response whose content was split on newlines
into `lines`.  Both failure paths return the synthetic fallback names; the
success path keeps the non-blank lines, cleans them, and truncates to
`num_playlists`. -/
def suggest_playlist_names (response : Except String (Option (List String)))
    (num_playlists : Nat) : List String :=
  match response with
  | .error _ => fallback_names num_playlists
  | .ok none => fallback_names num_playlists
  | .ok (some lines) =>
    ((lines.filter fun l => pyStrip l != "").map cleanName).take num_playlists

/-- The padding step of `process_playlists` (src/app.py lines 145-146):
`playlist_names += [f"Playlist {i+1}" for i in range(len(playlist_names), len(playlists))]`
when fewer names than playlists were produced. -/
def finalize_names (playlist_names : List String) (numPlaylists : Nat) : List String :=
  if playlist_names.length < numPlaylists then
    playlist_names ++
      (List.range' playlist_names.length (numPlaylists - playlist_names.length)).map
        (fun i => "Playlist " ++ toString (i + 1))
  else playlist_names

/-- Observable outcome of `process_playlists` (src/app.py lines 110-180).
`readError` is the `except` return of lines 115-116, `missingColumns` the
return of lines 121-123, `invalidConfig` the return of lines 135-136,
`diverged` marks a call whose allocation loop never exits (the Python call
hangs; the fuel-indexed embedding returns `none`), and `success` carries
the playlists and the final names. -/
inductive ProcResult where
  | readError : ProcResult
  | missingColumns : ProcResult
  | invalidConfig : String → ProcResult
  | diverged : ProcResult
  | success : List (List Track) → List String → ProcResult
deriving DecidableEq

/-- `process_playlists` (src/app.py lines 110-148) up to the point where
playlists and their final names exist.  The workbook is the list of its
sheets in order; `pd.read_excel(file, sheet_name=0)` reads the first sheet
and `pd.read_excel(file, sheet_name="Playlist Titles")` raises — caught as
the file-read error — when no sheet has that name.  The OpenAI interaction
is abstracted as in `suggest_playlist_names`. -/
def process_playlists (wb : List (String × InputTable)) (num_playlists tracks_per_playlist : Nat)
    (rng : Nat → Nat) (fuel : Nat) (use_openai : Bool)
    (response : Except String (Option (List String))) : ProcResult :=
  match wb.head? with
  | none => .readError
  | some (_, data) =>
    match wb.find? (fun sh => sh.1 == "Playlist Titles") with
    | none => .readError
    | some _ =>
      if data.hasArtist && data.hasTitle && data.hasIsrc then
        let cleaned := clean_rows data
        match validate_playlist_rules cleaned num_playlists tracks_per_playlist with
        | (true, _) =>
          match generate_playlists rng cleaned num_playlists tracks_per_playlist fuel with
          | none => .diverged
          | some playlists =>
            let names :=
              if use_openai then
                finalize_names (suggest_playlist_names response num_playlists) num_playlists
              else fallback_names num_playlists
            .success playlists names
        | (false, message) => .invalidConfig message
      else .missingColumns

/-- One row of an exported playlist frame (src/app.py line 178): the
display name, the track columns, and the `Exclude from Excel` flag. -/
structure SheetRow where
  playlistName : String
  artist : String
  title : String
  isrc : String
  streams : Option Nat
  excludeFromExcel : Bool
deriving DecidableEq, Repr

/-- Placeholder row for head-of-list access in specifications. -/
def defaultSheetRow : SheetRow := ⟨"", "", "", "", none, false⟩

/-- The characters replaced by `re.sub` in src/app.py line 188. -/
def sheetNameBanned : List Char := ['\\', '/', '*', '?', ':', '[', ']']

/-- Sheet-name sanitization of src/app.py line 188:
`re.sub(pattern, underscore, name)[:31]` — replace each unsafe character by
an underscore, then keep the first 31 characters. -/
def sanitize_sheet_name (s : String) : String :=
  ⟨(s.toList.map fun c => if sheetNameBanned.contains c then '_' else c).take 31⟩

/-- `save_to_excel(playlists, output_filename)` (src/app.py lines 182-189)
as the list of written sheets: for each playlist, filter out the rows whose
`Exclude from Excel` flag is set; if anything remains, write one sheet
named after the first remaining row's display name (sanitized), holding
exactly the remaining rows.  A playlist whose filtered frame is empty
produces no sheet. -/
def save_to_excel (playlists : List (List SheetRow)) : List (String × List SheetRow) :=
  playlists.filterMap fun playlist =>
    match playlist.filter (fun r => !r.excludeFromExcel) with
    | [] => none
    | r :: rest => some (sanitize_sheet_name r.playlistName, r :: rest)

/-- A loop state from which the `while` loop of `generate_playlists` can
never exit: the playlist is still short of `K`, the eligible frame is
non-empty, and every eligible row repeats the artist of the last appended
track — so every iteration takes the `continue` of src/app.py line 53 and
leaves the state unchanged. -/
def Stuck (K : Nat) (s : LoopState) : Prop :=
  s.playlist.length < K ∧ validTracks s ≠ [] ∧
    ∀ t ∈ validTracks s, sameAsLast s.playlist t = true

/-- Invariant of the per-playlist loop, relative to the `used_isrcs` set
`u0` the playlist started from: the artist dict agrees with the playlist's
artist counts, no artist exceeds the cap, no two adjacent tracks share an
artist, the playlist's isrcs are distinct, recorded in `used_isrcs`, and
fresh with respect to `u0`, and `used_isrcs` only grows. -/
structure LoopInv (u0 : List String) (s : LoopState) : Prop where
  counts : ∀ a, s.usedArtists a = artistCount s.playlist a
  cap : ∀ a, artistCount s.playlist a ≤ 3
  chain : List.Chain' (fun u v : Track => u.artist ≠ v.artist) s.playlist
  nodup : (s.playlist.map Track.isrc).Nodup
  subs : ∀ i ∈ s.playlist.map Track.isrc, i ∈ s.usedIsrcs
  fresh : ∀ i ∈ s.playlist.map Track.isrc, i ∉ u0
  mono : ∀ i ∈ u0, i ∈ s.usedIsrcs

/-- Two-track pool by a single artist: the concrete input on which the
allocator loop never terminates. -/
def singleArtistPool : List Track :=
  [⟨"Artist A", "Song 1", "ISRC1", none⟩, ⟨"Artist A", "Song 2", "ISRC2", none⟩]

/-- Two-track pool by two distinct artists: a concrete input on which the
allocator terminates, used to witness the invariant theorems. -/
def twoArtistPool : List Track :=
  [⟨"Artist A", "Song 1", "ISRC1", none⟩, ⟨"Artist B", "Song 2", "ISRC2", none⟩]

/-- Four tracks by one artist: a concrete input on which the artist-cap
feasibility rule fires. -/
def fourTrackOneArtistPool : List Track :=
  [⟨"Artist A", "Song 1", "ISRC1", none⟩, ⟨"Artist A", "Song 2", "ISRC2", none⟩,
   ⟨"Artist A", "Song 3", "ISRC3", none⟩, ⟨"Artist A", "Song 4", "ISRC4", none⟩]

/-- Spec-side retention predicate for the amended C7: a row survives the
cleaning step iff its three required fields are present and, when the
uploaded sheet has a streams column, its streams value is present too. -/
def keptRow (hasStreams : Bool) (r : RawRow) : Bool :=
  r.artist.isSome && r.title.isSome && r.isrc.isSome && (!hasStreams || r.streams.isSome)

/-- Spec-side conversion of a retained raw row into a pool track. -/
def toTrack (hasStreams : Bool) (r : RawRow) : Track :=
  ⟨r.artist.getD "", r.title.getD "", r.isrc.getD "",
   if hasStreams then r.streams else none⟩

theorem buildPlaylist_zero (rng : Nat → Nat) (K step : Nat) (s : LoopState) :
    buildPlaylist rng K 0 step s = none := rfl

theorem buildPlaylist_succ (rng : Nat → Nat) (K n step : Nat) (s : LoopState) :
    buildPlaylist rng K (n + 1) step s =
      if s.playlist.length < K then
        if (validTracks s).isEmpty then some (s, step)
        else
          if sameAsLast s.playlist (selectTrack rng step (validTracks s)) then
            buildPlaylist rng K n (step + 1) s
          else
            buildPlaylist rng K n (step + 1) (appendTrack s (selectTrack rng step (validTracks s)))
      else some (s, step) := rfl

theorem selectTrack_mem (rng : Nat → Nat) (step : Nat) {valid : List Track}
    (h : valid ≠ []) : selectTrack rng step valid ∈ valid := by
  have hlen : 0 < valid.length := List.length_pos.mpr h
  have hlt : rng step % valid.length < valid.length := Nat.mod_lt _ hlen
  rw [selectTrack, List.getD_eq_getElem _ _ hlt]
  exact List.getElem_mem hlt

theorem mem_validTracks {s : LoopState} {t : Track} :
    t ∈ validTracks s ↔
      t ∈ s.remaining ∧ s.usedArtists t.artist < 3 ∧ t.isrc ∉ s.usedIsrcs := by
  simp [validTracks, List.mem_filter, and_assoc]

theorem buildPlaylist_stuck (rng : Nat → Nat) (K : Nat) (s : LoopState) (hs : Stuck K s) :
    ∀ fuel step, buildPlaylist rng K fuel step s = none := by
  intro fuel
  induction fuel with
  | zero => intro step; rfl
  | succ n ih =>
    intro step
    obtain ⟨hlen, hne, hall⟩ := hs
    have hemp : ¬ ((validTracks s).isEmpty = true) := by
      intro hcon
      exact hne (List.isEmpty_iff.mp hcon)
    rw [buildPlaylist_succ, if_pos hlen, if_neg hemp,
      if_pos (hall _ (selectTrack_mem rng step hne))]
    exact ih (step + 1)

theorem artistCount_append_singleton (pl : List Track) (t : Track) (a : String) :
    artistCount (pl ++ [t]) a = artistCount pl a + if t.artist == a then 1 else 0 := by
  simp [artistCount, List.countP_append, List.countP_cons]

theorem loopInv_append {u0 : List String} {s : LoopState} {t : Track}
    (hInv : LoopInv u0 s) (ht : t ∈ validTracks s)
    (hlast : sameAsLast s.playlist t = false) : LoopInv u0 (appendTrack s t) := by
  obtain ⟨_, hcap3, hnotused⟩ := mem_validTracks.mp ht
  constructor
  · intro a
    simp only [appendTrack]
    rw [artistCount_append_singleton]
    by_cases hat : a = t.artist
    · subst hat
      simp [hInv.counts]
    · have : (t.artist == a) = false := beq_eq_false_iff_ne.mpr fun hc => hat hc.symm
      simp [hat, this, hInv.counts]
  · intro a
    simp only [appendTrack]
    rw [artistCount_append_singleton]
    by_cases hat : t.artist = a
    · have hlt : artistCount s.playlist t.artist < 3 := by
        rw [← hInv.counts]; exact hcap3
      subst hat
      simp only [beq_self_eq_true, if_pos]
      omega
    · have : (t.artist == a) = false := beq_eq_false_iff_ne.mpr hat
      simp only [this, if_neg, Bool.false_eq_true, if_false]
      have := hInv.cap a
      omega
  · simp only [appendTrack]
    rw [List.chain'_append]
    refine ⟨hInv.chain, List.chain'_singleton t, ?_⟩
    intro x hx y hy
    simp only [List.head?_cons, Option.mem_def, Option.some.injEq] at hy
    subst hy
    rw [sameAsLast, hx] at hlast
    exact beq_eq_false_iff_ne.mp hlast
  · simp only [appendTrack]
    rw [List.map_append, List.nodup_append]
    refine ⟨hInv.nodup, List.nodup_singleton _, ?_⟩
    intro i hi₁ hi₂
    simp only [List.map_cons, List.map_nil, List.mem_singleton] at hi₂
    subst hi₂
    exact hnotused (hInv.subs _ hi₁)
  · intro i hi
    simp only [appendTrack, List.map_append, List.mem_append, List.map_cons, List.map_nil,
      List.mem_singleton] at hi ⊢
    rcases hi with hi | hi
    · exact List.mem_cons_of_mem _ (hInv.subs i hi)
    · subst hi; exact List.mem_cons_self _ _
  · intro i hi
    simp only [appendTrack, List.map_append, List.mem_append, List.map_cons, List.map_nil,
      List.mem_singleton] at hi
    rcases hi with hi | hi
    · exact hInv.fresh i hi
    · subst hi
      intro hcon
      exact hnotused (hInv.mono _ hcon)
  · intro i hi
    simp only [appendTrack]
    exact List.mem_cons_of_mem _ (hInv.mono i hi)

theorem loopInv_init (u0 : List String) (data : List Track) :
    LoopInv u0 (initState u0 data) := by
  constructor
  · intro a; simp [initState, artistCount]
  · intro a; simp [initState, artistCount]
  · simp [initState]
  · simp [initState]
  · intro i hi; simp [initState] at hi
  · intro i hi; simp [initState] at hi
  · intro i hi; exact hi

theorem buildPlaylist_inv (rng : Nat → Nat) (K : Nat) (u0 : List String) :
    ∀ fuel step s s' step2, LoopInv u0 s →
      buildPlaylist rng K fuel step s = some (s', step2) → LoopInv u0 s' := by
  intro fuel
  induction fuel with
  | zero =>
    intro step s s' step2 _ h
    rw [buildPlaylist_zero] at h
    exact absurd h (by simp)
  | succ n ih =>
    intro step s s' step2 hInv h
    rw [buildPlaylist_succ] at h
    by_cases hlen : s.playlist.length < K
    · rw [if_pos hlen] at h
      by_cases hemp : (validTracks s).isEmpty = true
      · rw [if_pos hemp] at h
        simp only [Option.some.injEq, Prod.mk.injEq] at h
        obtain ⟨h1, _⟩ := h
        exact h1 ▸ hInv
      · rw [if_neg hemp] at h
        have hne : validTracks s ≠ [] := fun hnil => hemp (by simp [hnil])
        by_cases hsame : sameAsLast s.playlist (selectTrack rng step (validTracks s)) = true
        · rw [if_pos hsame] at h
          exact ih (step + 1) s s' step2 hInv h
        · rw [if_neg hsame] at h
          exact ih (step + 1) _ s' step2
            (loopInv_append hInv (selectTrack_mem rng step hne)
              (Bool.not_eq_true _ ▸ eq_false_of_ne_true hsame)) h
    · rw [if_neg hlen] at h
      simp only [Option.some.injEq, Prod.mk.injEq] at h
      obtain ⟨h1, _⟩ := h
      exact h1 ▸ hInv

theorem genLoop_zero (rng : Nat → Nat) (data : List Track) (K fuel step : Nat)
    (used : List String) : genLoop rng data K fuel 0 step used = some [] := rfl

theorem genLoop_succ (rng : Nat → Nat) (data : List Track) (K fuel p step : Nat)
    (used : List String) :
    genLoop rng data K fuel (p + 1) step used =
      match buildPlaylist rng K fuel step (initState used data) with
      | none => none
      | some (s, step2) =>
        match genLoop rng data K fuel p step2 s.usedIsrcs with
        | none => none
        | some rest => some (s.playlist :: rest) := rfl

theorem genLoop_props (rng : Nat → Nat) (data : List Track) (K fuel : Nat) :
    ∀ p step used pls, genLoop rng data K fuel p step used = some pls →
      (∀ pl ∈ pls, (∀ a, artistCount pl a ≤ 3) ∧
          List.Chain' (fun u v : Track => u.artist ≠ v.artist) pl) ∧
      (pls.flatMap fun pl => pl.map Track.isrc).Nodup ∧
      (∀ i ∈ pls.flatMap fun pl => pl.map Track.isrc, i ∉ used) := by
  intro p
  induction p with
  | zero =>
    intro step used pls h
    rw [genLoop_zero] at h
    simp only [Option.some.injEq] at h
    subst h
    simp
  | succ n ih =>
    intro step used pls h
    rw [genLoop_succ] at h
    cases hb : buildPlaylist rng K fuel step (initState used data) with
    | none => rw [hb] at h; exact absurd h (by simp)
    | some st =>
      obtain ⟨s, step2⟩ := st
      rw [hb] at h
      dsimp only at h
      cases hg : genLoop rng data K fuel n step2 s.usedIsrcs with
      | none => rw [hg] at h; exact absurd h (by simp)
      | some rest =>
        rw [hg] at h
        simp only [Option.some.injEq] at h
        subst h
        have hinv := buildPlaylist_inv rng K used fuel step _ s step2 (loopInv_init used data) hb
        obtain ⟨hprops, hnodup, hfresh⟩ := ih step2 s.usedIsrcs rest hg
        refine ⟨?_, ?_, ?_⟩
        · intro pl hpl
          rcases List.mem_cons.mp hpl with rfl | hpl
          · exact ⟨hinv.cap, hinv.chain⟩
          · exact hprops pl hpl
        · simp only [List.flatMap_cons]
          rw [List.nodup_append]
          refine ⟨hinv.nodup, hnodup, ?_⟩
          intro i hi1 hi2
          exact hfresh i hi2 (hinv.subs i hi1)
        · intro i hi
          simp only [List.flatMap_cons, List.mem_append] at hi
          rcases hi with hi | hi
          · exact hinv.fresh i hi
          · intro hiu
            exact hfresh i hi (hinv.mono i hiu)

/-- C2: for every pool, request and random source, in every playlist
produced by `generate_playlists`, no artist occurs more than 3 times
within that playlist. -/
theorem generate_playlists_artist_cap (rng : Nat → Nat) (data : List Track)
    (P K fuel : Nat) (pls : List (List Track))
    (h : generate_playlists rng data P K fuel = some pls) :
    ∀ pl ∈ pls, ∀ a, artistCount pl a ≤ 3 :=
  fun pl hpl a => ((genLoop_props rng data K fuel P 0 [] pls h).1 pl hpl).1 a

theorem generate_playlists_artist_cap_witness :
    artistCount twoArtistPool "Artist A" ≤ 3 :=
  generate_playlists_artist_cap (fun _ => 0) twoArtistPool 1 2 8 [twoArtistPool] (by decide)
    twoArtistPool (by decide) "Artist A"

/-- C3: for every pool, request and random source, no track id (isrc)
appears twice within a single produced playlist, and no track id appears in
more than one playlist of the same allocation call: the concatenation of
all produced playlists' isrc columns has no duplicate. -/
theorem generate_playlists_isrc_unique (rng : Nat → Nat) (data : List Track)
    (P K fuel : Nat) (pls : List (List Track))
    (h : generate_playlists rng data P K fuel = some pls) :
    (pls.flatMap fun pl => pl.map Track.isrc).Nodup :=
  (genLoop_props rng data K fuel P 0 [] pls h).2.1

theorem generate_playlists_isrc_unique_witness :
    (([twoArtistPool] : List (List Track)).flatMap fun pl => pl.map Track.isrc).Nodup :=
  generate_playlists_isrc_unique (fun _ => 0) twoArtistPool 1 2 8 [twoArtistPool] (by decide)

/-- C4: for every pool, request and random source, in every playlist
produced by `generate_playlists`, no two adjacent tracks share the same
artist. -/
theorem generate_playlists_no_consecutive (rng : Nat → Nat) (data : List Track)
    (P K fuel : Nat) (pls : List (List Track))
    (h : generate_playlists rng data P K fuel = some pls) :
    ∀ pl ∈ pls, List.Chain' (fun u v : Track => u.artist ≠ v.artist) pl :=
  fun pl hpl => ((genLoop_props rng data K fuel P 0 [] pls h).1 pl hpl).2

theorem generate_playlists_no_consecutive_witness :
    List.Chain' (fun u v : Track => u.artist ≠ v.artist) twoArtistPool :=
  generate_playlists_no_consecutive (fun _ => 0) twoArtistPool 1 2 8 [twoArtistPool] (by decide)
    twoArtistPool (by decide)

theorem singleArtist_noexit (K : Nat) (hK : 1 < K) (rng : Nat → Nat) :
    ∀ fuel step, buildPlaylist rng K fuel step (initState [] singleArtistPool) = none := by
  intro fuel step
  cases fuel with
  | zero => rfl
  | succ n =>
    have hlen : (initState [] singleArtistPool).playlist.length < K := by
      simp only [initState, List.length_nil]
      omega
    have hvne : validTracks (initState [] singleArtistPool) ≠ [] := by decide
    have hemp : ¬ ((validTracks (initState [] singleArtistPool)).isEmpty = true) := by decide
    rw [buildPlaylist_succ, if_pos hlen, if_neg hemp]
    have hsel : selectTrack rng step (validTracks (initState [] singleArtistPool)) =
          (⟨"Artist A", "Song 1", "ISRC1", none⟩ : Track) ∨
        selectTrack rng step (validTracks (initState [] singleArtistPool)) =
          (⟨"Artist A", "Song 2", "ISRC2", none⟩ : Track) := by
      have hmem := selectTrack_mem rng step hvne
      have hv : validTracks (initState [] singleArtistPool) = singleArtistPool := by decide
      rw [hv] at hmem
      simpa [singleArtistPool] using hmem
    rcases hsel with hsel | hsel <;> rw [hsel] <;> rw [if_neg (by decide)]
    · refine buildPlaylist_stuck rng K _ ⟨?_, by decide, by decide⟩ n (step + 1)
      simp only [appendTrack, initState, List.nil_append, List.length_singleton]
      omega
    · refine buildPlaylist_stuck rng K _ ⟨?_, by decide, by decide⟩ n (step + 1)
      simp only [appendTrack, initState, List.nil_append, List.length_singleton]
      omega

/-- C1: the claim fails on the code.  On the two-track single-artist pool
with numPlaylists = 1 and tracksPerPlaylist = 2, for every random source
and every iteration budget the `while` loop of `generate_playlists` has
still not exited: after the first track is appended, the only eligible
candidate repeats the last appended artist, so every further iteration
takes the `continue` of src/app.py line 53 without changing any state.
The loop therefore never terminates — the fuel-indexed embedding returns
`none` for every fuel — and in particular its iteration count is not
bounded by tracksPerPlaylist. -/
theorem generate_playlists_c1_nonterminating (rng : Nat → Nat) (fuel : Nat) :
    generate_playlists rng singleArtistPool 1 2 fuel = none := by
  have h := singleArtist_noexit 2 (by omega) rng fuel 0
  show genLoop rng singleArtistPool 2 fuel (0 + 1) 0 [] = none
  rw [genLoop_succ, h]

/-- C6: the claim fails on the code.  On a pool whose tracks all share one
artist (two tracks here) with tracksPerPlaylist = 4 > 3, the call does not
complete at all: after the first track is appended, every eligible
candidate repeats the last appended artist, the `continue` of src/app.py
line 53 fires forever, and `generate_playlists` never returns — so no
playlist of exactly 3 tracks is ever produced. -/
theorem generate_playlists_c6_hangs (rng : Nat → Nat) (fuel : Nat) :
    generate_playlists rng singleArtistPool 1 4 fuel = none := by
  have h := singleArtist_noexit 4 (by omega) rng fuel 0
  show genLoop rng singleArtistPool 4 fuel (0 + 1) 0 [] = none
  rw [genLoop_succ, h]

/-- C5: with T the total number of tracks, U the number of distinct
artists, P = numPlaylists and K = tracksPerPlaylist,
`validate_playlist_rules` fails with the insufficient-supply reason when
T < P*K; otherwise fails with the artist-cap reason when 3*U*P < P*K;
otherwise succeeds with the valid-configuration status; and the two
failure reasons are distinct strings.  (The embedding is a pure function
of the pool, so the check mutates nothing.) -/
theorem validate_playlist_rules_spec (data : List Track) (P K : Nat) :
    (data.length < P * K →
      validate_playlist_rules data P K =
        (false, "Error: Archivo con data menor a tus solicitud. Ajusta la cantidad de playlists y tracks e intentalo de nuevo.")) ∧
    (¬ data.length < P * K →
      3 * (data.map Track.artist).dedup.length * P < P * K →
      validate_playlist_rules data P K =
        (false, "Too many restrictions for the available tracks.")) ∧
    (¬ data.length < P * K →
      ¬ 3 * (data.map Track.artist).dedup.length * P < P * K →
      validate_playlist_rules data P K = (true, "Valid playlist configuration.")) ∧
    ("Error: Archivo con data menor a tus solicitud. Ajusta la cantidad de playlists y tracks e intentalo de nuevo."
      ≠ "Too many restrictions for the available tracks.") := by
  refine ⟨?_, ?_, ?_, by decide⟩
  · intro h
    have h1 : data.length < K * P := by rw [Nat.mul_comm]; exact h
    simp [validate_playlist_rules, h1]
  · intro h h2
    have h1 : ¬ data.length < K * P := by rw [Nat.mul_comm]; exact h
    have h2' : 3 * (data.map Track.artist).dedup.length * P < K * P := by
      rw [Nat.mul_comm K P]; exact h2
    simp [validate_playlist_rules, h1, h2']
  · intro h h2
    have h1 : ¬ data.length < K * P := by rw [Nat.mul_comm]; exact h
    have h2' : ¬ 3 * (data.map Track.artist).dedup.length * P < K * P := by
      rw [Nat.mul_comm K P]; exact h2
    simp [validate_playlist_rules, h1, h2']

theorem validate_playlist_rules_spec_witness :
    (validate_playlist_rules [] 1 1 =
      (false, "Error: Archivo con data menor a tus solicitud. Ajusta la cantidad de playlists y tracks e intentalo de nuevo.")) ∧
    (validate_playlist_rules fourTrackOneArtistPool 1 4 =
      (false, "Too many restrictions for the available tracks.")) ∧
    (validate_playlist_rules twoArtistPool 1 2 = (true, "Valid playlist configuration.")) :=
  ⟨(validate_playlist_rules_spec [] 1 1).1 (by decide),
   (validate_playlist_rules_spec fourTrackOneArtistPool 1 4).2.1 (by decide) (by decide),
   (validate_playlist_rules_spec twoArtistPool 1 2).2.2.1 (by decide) (by decide)⟩

/-- C7 counterexample: in a document that has the streams column, a row
with artist, title and id present but the optional streams value missing is
NOT retained — `dropna()` removes it, so the pool passed to allocation is
empty. -/
theorem clean_rows_drops_missing_streams :
    clean_rows ⟨true, true, true, true,
      [⟨some "Artist A", some "Song 1", some "ISRC1", none⟩]⟩ = [] := rfl

/-- C7 amended: a row survives the cleaning step before allocation iff its
three required fields are present AND, when the uploaded sheet has a
streams column, its streams value is present as well; each retained row
keeps its streams value as weight (no weight column exists when the sheet
has none, in which case selection is uniform). -/
theorem clean_rows_cons (hA hT hI hS : Bool) (r : RawRow) (rs : List RawRow) :
    clean_rows ⟨hA, hT, hI, hS, r :: rs⟩ =
      (if keptRow hS r then [toTrack hS r] else []) ++ clean_rows ⟨hA, hT, hI, hS, rs⟩ := by
  rcases r with ⟨oa, ot, oi, os⟩
  cases oa <;> cases ot <;> cases oi <;> cases os <;> cases hS <;> rfl

theorem clean_rows_characterization (tbl : InputTable) :
    clean_rows tbl =
      (tbl.rows.filter (keptRow tbl.hasStreams)).map (toTrack tbl.hasStreams) := by
  rcases tbl with ⟨hA, hT, hI, hS, rows⟩
  induction rows with
  | nil => rfl
  | cons r rs ih =>
    rw [clean_rows_cons, ih]
    show _ = ((r :: rs).filter (keptRow hS)).map (toTrack hS)
    rw [List.filter_cons]
    by_cases hk : keptRow hS r = true
    · simp [hk]
    · simp [hk]

theorem suggest_length_le (resp : Except String (Option (List String))) (n : Nat) :
    (suggest_playlist_names resp n).length ≤ n := by
  rcases resp with e | o
  · simp [suggest_playlist_names, fallback_names]
  · rcases o with _ | lines
    · simp [suggest_playlist_names, fallback_names]
    · simp only [suggest_playlist_names, List.length_take, List.length_map]
      omega

/-- C8: for every adapter outcome, the final name list produced for an
allocation of `n` playlists has length exactly `n`; every position at or
beyond the adapter-provided names is filled with the synthetic fallback
"Playlist (i+1)"; and a raised adapter error is absorbed into the full
synthetic fallback list, never escaping to the caller. -/
theorem suggest_names_total (resp : Except String (Option (List String))) (n : Nat) :
    (finalize_names (suggest_playlist_names resp n) n).length = n ∧
    (∀ i, (suggest_playlist_names resp n).length ≤ i → i < n →
      (finalize_names (suggest_playlist_names resp n) n)[i]? =
        some ("Playlist " ++ toString (i + 1))) ∧
    (∀ e, suggest_playlist_names (Except.error e) n = fallback_names n) := by
  have hle : (suggest_playlist_names resp n).length ≤ n := suggest_length_le resp n
  refine ⟨?_, ?_, fun e => rfl⟩
  · rw [finalize_names]
    by_cases hlt : (suggest_playlist_names resp n).length < n
    · rw [if_pos hlt]
      simp only [List.length_append, List.length_map, List.length_range']
      omega
    · rw [if_neg hlt]
      omega
  · intro i h1 h2
    have hlt : (suggest_playlist_names resp n).length < n := Nat.lt_of_le_of_lt h1 h2
    rw [finalize_names, if_pos hlt, List.getElem?_append_right (by simpa using h1),
      List.getElem?_map, List.getElem?_range' _ _ (by omega)]
    have harith :
        (suggest_playlist_names resp n).length +
          1 * (i - (suggest_playlist_names resp n).length) = i := by omega
    rw [harith]
    rfl

theorem suggest_names_total_witness :
    (finalize_names (suggest_playlist_names (Except.ok (some ["1. Chill", "   "])) 3) 3).length
      = 3 ∧
    (finalize_names (suggest_playlist_names (Except.ok (some ["1. Chill", "   "])) 3) 3)[2]? =
      some ("Playlist " ++ toString (2 + 1)) :=
  ⟨(suggest_names_total (Except.ok (some ["1. Chill", "   "])) 3).1,
   (suggest_names_total (Except.ok (some ["1. Chill", "   "])) 3).2.1 2 (by decide) (by decide)⟩

/-- C9 counterexample: a playlist whose rows are all flagged for exclusion
produces NO sheet at all — `save_to_excel` writes zero sheets for this
one-playlist input, not one sheet per playlist. -/
theorem save_to_excel_skips_fully_excluded :
    save_to_excel [[⟨"My Playlist", "Artist A", "Song 1", "ISRC1", none, true⟩]] = [] := rfl

/-- C9 amended: `save_to_excel` writes one sheet per playlist that still
has a row after dropping the rows whose exclusion flag is true (playlists
left with no row are skipped); each written sheet holds exactly the
playlist's non-excluded rows, and its name is the first remaining row's
display name with the characters backslash, slash, star, question mark,
colon and square brackets replaced by underscores, truncated to at most 31
characters. -/
theorem save_to_excel_spec (playlists : List (List SheetRow)) :
    save_to_excel playlists =
      ((playlists.map fun pl => pl.filter fun r => !r.excludeFromExcel).filter
          fun f => !f.isEmpty).map
        (fun f => (sanitize_sheet_name (f.headD defaultSheetRow).playlistName, f)) ∧
    ∀ s : String, (sanitize_sheet_name s).toList.length ≤ 31 ∧
      ∀ c ∈ (sanitize_sheet_name s).toList, sheetNameBanned.contains c = false := by
  constructor
  · induction playlists with
    | nil => rfl
    | cons pl pls ih =>
      show save_to_excel (pl :: pls) = _
      rw [save_to_excel, List.filterMap_cons]
      rw [save_to_excel] at ih
      cases hf : pl.filter (fun r => !r.excludeFromExcel) with
      | nil => simpa [hf] using ih
      | cons r rest => simpa [hf] using ih
  · intro s
    constructor
    · show ((s.toList.map _).take 31).length ≤ 31
      rw [List.length_take]
      omega
    · intro c hc
      have hc' : c ∈ s.toList.map fun c => if sheetNameBanned.contains c then '_' else c :=
        List.take_subset _ _ hc
      obtain ⟨c0, _, hco⟩ := List.mem_map.mp hc'
      by_cases hb : sheetNameBanned.contains c0 = true
      · rw [hb] at hco
        simp only [if_true] at hco
        subst hco
        decide
      · rw [eq_false_of_ne_true hb] at hco
        simp only [Bool.false_eq_true, if_false] at hco
        subst hco
        exact eq_false_of_ne_true hb

/-- C10: for every workbook without a sheet named "Playlist Titles",
`process_playlists` returns the file-read error — for every request, every
random source, every fuel budget, whether or not name suggestion is
enabled, and whatever the first sheet contains — so neither the
feasibility check nor the allocation is reached (their outcomes
`invalidConfig`, `diverged` and `success` are distinct constructors from
`readError`). -/
theorem process_playlists_missing_titles_sheet (wb : List (String × InputTable))
    (P K : Nat) (rng : Nat → Nat) (fuel : Nat) (use_openai : Bool)
    (resp : Except String (Option (List String)))
    (h : wb.find? (fun sh => sh.1 == "Playlist Titles") = none) :
    process_playlists wb P K rng fuel use_openai resp = ProcResult.readError := by
  cases wb with
  | nil => rfl
  | cons sh rest =>
    rw [process_playlists]
    simp only [List.head?_cons]
    rw [h]

theorem process_playlists_missing_titles_sheet_witness :
    process_playlists
      [("Sheet1", ⟨true, true, true, false,
        [⟨some "Artist A", some "Song 1", some "ISRC1", none⟩]⟩)]
      1 1 (fun _ => 0) 10 false (Except.error "no call") = ProcResult.readError :=
  process_playlists_missing_titles_sheet _ 1 1 (fun _ => 0) 10 false _ (by decide)
